import Mathlib

/-!
Shallow embedding of the appointment slot-allocation and points-economy
engine of the Dry-ice-cleaning backend, together with theorems settling
the specification claims.

Modelling conventions, shared by every definition below:
* Calendar dates are day numbers (days since 1970-01-01, proleptic
  Gregorian).  The source stores JavaScript `Date` values but every core
  comparison is made at day granularity (dates are normalised with
  `setHours(0,0,0,0)` before comparison, and the aggregation groups by the
  ISO day string), so a day number is a faithful carrier.
* Mongoose documents become Lean structures; a collection becomes a list of
  such structures; a storage mutation becomes explicit state passing.
* Fallible steps return explicit result values; a thrown JS exception that
  a controller catches and converts into a 500 response becomes an explicit
  error constructor.
-/

set_option maxRecDepth 40000

namespace DryIce

/-! ## Calendar arithmetic (proleptic Gregorian, day numbers) -/

/-- Gregorian leap-year test (JS Date follows the Gregorian calendar). -/
def isLeap (y : Nat) : Bool :=
  (y % 4 == 0 && y % 100 != 0) || y % 400 == 0

def daysInYear (y : Nat) : Nat := if isLeap y then 366 else 365

/-- Days of month `m` (1..12) of year `y`. -/
def daysInMonth (y m : Nat) : Nat :=
  if m == 2 then (if isLeap y then 29 else 28)
  else if m == 4 || m == 6 || m == 9 || m == 11 then 30
  else 31

/-- Split a day count into (year, remaining days), starting at year `y`.
Structurally recursive on a fuel argument so the kernel can evaluate it;
one unit of fuel per year step always suffices since a year consumes at
least 365 days. -/
def yearFromDays : Nat → Nat → Nat → Nat × Nat
  | 0, y, d => (y, d)
  | fuel + 1, y, d =>
    if d < daysInYear y then (y, d)
    else yearFromDays fuel (y + 1) (d - daysInYear y)

/-- Split remaining days of year `y` into (month, day-of-month index); the
fuel counts the months still available past the current one. -/
def monthFromDays (y : Nat) : Nat → Nat → Nat → Nat × Nat
  | 0, m, d => (m, d)
  | fuel + 1, m, d =>
    if d < daysInMonth y m then (m, d)
    else monthFromDays y fuel (m + 1) (d - daysInMonth y m)

/-- Day number to civil date (year, month 1..12, day 1..31). -/
def dayToCivil (t : Nat) : Nat × Nat × Nat :=
  let yr := yearFromDays (t + 1) 1970 t
  let md := monthFromDays yr.1 11 1 yr.2
  (yr.1, md.1, md.2 + 1)

/-- Days from 1970-01-01 to `y`-01-01. -/
def daysBeforeYear (y : Nat) : Nat :=
  (List.range (y - 1970)).foldl (fun acc i => acc + daysInYear (1970 + i)) 0

/-- Days from `y`-01-01 to `y`-`m`-01. -/
def daysBeforeMonth (y m : Nat) : Nat :=
  (List.range (m - 1)).foldl (fun acc i => acc + daysInMonth y (1 + i)) 0

/-- Civil date to day number.  A day-of-month larger than the length of the
month spills into the following month, exactly as a JS `Date` does when a
component is set out of range. -/
def mkDate (y m d : Nat) : Nat :=
  daysBeforeYear y + daysBeforeMonth y m + (d - 1)

/-- JS `Date.prototype.getDay`: 0 = Sunday .. 6 = Saturday.
1970-01-01 was a Thursday (4). -/
def dayOfWeek (t : Nat) : Nat := (t + 4) % 7

/-- `addMonths` from src/utils/dateUtils.ts: `result.setMonth(result.getMonth()
+ months)`, with JS month/day overflow semantics (month counts past December
carry into the year; a day-of-month absent from the target month spills
forward).  `mkDate` reproduces the day spill. -/
def addMonths (t k : Nat) : Nat :=
  let c := dayToCivil t
  let total := (c.2.1 - 1) + k
  mkDate (c.1 + total / 12) (total % 12 + 1) c.2.2

/-! ## Calendar Classifier (src/utils/dateUtils.ts) -/

/-- `danishHolidays2025` from src/utils/dateUtils.ts, as day numbers. -/
def danishHolidays2025 : List Nat :=
  [mkDate 2025 1 1, mkDate 2025 4 17, mkDate 2025 4 18, mkDate 2025 4 21,
   mkDate 2025 5 16, mkDate 2025 5 29, mkDate 2025 6 5, mkDate 2025 6 9,
   mkDate 2025 12 24, mkDate 2025 12 25, mkDate 2025 12 26, mkDate 2025 12 31]

inductive DateType where
  | weekday
  | weekend
  | holiday
deriving Repr, DecidableEq

/-- `getDateType` from src/utils/dateUtils.ts: holiday-list membership first
(the list membership test compares ISO day strings, i.e. day numbers), then
Saturday/Sunday, else weekday. -/
def getDateType (t : Nat) : DateType :=
  if danishHolidays2025.contains t then .holiday
  else if dayOfWeek t == 0 || dayOfWeek t == 6 then .weekend
  else .weekday

/-! ## Pricing Engine (src/services/pricingService.ts, src/unnamed/part_009) -/

inductive ServiceType where
  | basic
  | deluxe
deriving Repr, DecidableEq

/-- `PRICING_CONFIG` base prices: basic 1000, deluxe 1400. -/
def basePrice : ServiceType → Nat
  | .basic => 1000
  | .deluxe => 1400

/-- `calculateAppointmentPrice`.  The source computes
`Math.round(basePrice * 1.5)` and `Math.round(basePrice * 2.0)`;
for a natural `b`, `Math.round(b * 1.5) = (3*b + 1) / 2` in natural
division (floor of `1.5*b + 0.5`, and rounding half up matches
`Math.round`), and `Math.round(b * 2.0) = 2*b` exactly. -/
def calculateAppointmentPrice (st : ServiceType) (t : Nat) : Nat :=
  match getDateType t with
  | .weekend => (3 * basePrice st + 1) / 2
  | .holiday => 2 * basePrice st
  | .weekday => basePrice st

/-! ## Appointment data model (src/models/Appointment.ts, src/unnamed/part_004) -/

inductive AppointmentStatus where
  | pending
  | confirmed
  | in_progress
  | completed
  | cancelled
deriving Repr, DecidableEq

/-- `status: { $in: ['pending', 'confirmed', 'in_progress'] }` — the "active"
statuses used by the partial index filter and every active-appointment query. -/
def AppointmentStatus.isActive : AppointmentStatus → Bool
  | .pending => true
  | .confirmed => true
  | .in_progress => true
  | _ => false

/-- An appointment document.  `appointmentDate` is a day number; `startTime`
and `endTime` are (day, hour) pairs since all appointments start and end on
whole hours of the appointment day. -/
structure Appointment where
  id : Nat
  userId : Nat
  serviceType : ServiceType
  appointmentDate : Nat
  timeSlot : String
  startTime : Nat × Nat
  endTime : Nat × Nat
  location : String
  status : AppointmentStatus
  price : Nat
  notes : String
deriving Repr, DecidableEq

/-! ## Slot Allocator (src/services/appointmentService.ts, in
src/validation/packValidation.ts, and src/utils/dateUtils.ts) -/

/-- `getTimeSlots` from src/utils/dateUtils.ts. -/
def getTimeSlots : List String :=
  ["14:00-16:00", "16:00-18:00", "18:00-20:00", "20:00-22:00"]

/-- The start hour of a slot label: `Number` of the text before the first
colon (`timeSlot.split(':').map(Number)[0]` in the source).  Every slot
label starts with its hour digits followed by a colon, so this equals
reading the leading digit run. -/
def slotStartHour (ts : String) : Nat :=
  (ts.data.takeWhile Char.isDigit).foldl (fun n c => 10 * n + (c.toNat - 48)) 0

/-- `createDateTimeFromSlot`: start at the slot's start hour on day `t`,
end two hours later the same day. -/
def createDateTimeFromSlot (t : Nat) (ts : String) : (Nat × Nat) × (Nat × Nat) :=
  let startHour := slotStartHour ts
  ((t, startHour), (t, startHour + 2))

/-- The `timeSlot` labels of active appointments on day `t`
(`bookedSlots` in `AppointmentService.findAvailableSlot`; the query matches
`appointmentDate` within the day and active status). -/
def occupiedSlots (appts : List Appointment) (t : Nat) : List String :=
  (appts.filter (fun a => a.appointmentDate == t && a.status.isActive)).map
    (fun a => a.timeSlot)

structure SlotAssignment where
  timeSlot : String
  startTime : Nat × Nat
  endTime : Nat × Nat
deriving Repr, DecidableEq

/-- `AppointmentService.findAvailableSlot`: first slot of `getTimeSlots` not
among the occupied labels, with derived times; `none` when every slot label
is taken. -/
def findAvailableSlot (appts : List Appointment) (t : Nat) : Option SlotAssignment :=
  match getTimeSlots.find? (fun ts => !(occupiedSlots appts t).contains ts) with
  | some ts =>
      let se := createDateTimeFromSlot t ts
      some ⟨ts, se.1, se.2⟩
  | none => none

/-! ## The scoped unique index (src/models/Appointment.ts lines 86-96)

`appointmentSchema.index({ appointmentDate: 1, timeSlot: 1, status: 1 },
{ unique: true, partialFilterExpression: { status: { $in: ['pending',
'confirmed', 'in_progress'] } } })`.

MongoDB semantics: only documents matching the partial filter receive index
entries, and `unique` forbids two entries with the same key tuple — here the
tuple `(appointmentDate, timeSlot, status)`, with `status` part of the key. -/

/-- Whether persisting `a` into collection `appts` passes the unique index:
it fails only when `a` matches the partial filter and some existing document
matching the filter carries the identical `(appointmentDate, timeSlot,
status)` key. -/
def insertAdmitted (appts : List Appointment) (a : Appointment) : Bool :=
  !(a.status.isActive &&
    appts.any (fun b =>
      b.status.isActive && b.appointmentDate == a.appointmentDate &&
      b.timeSlot == a.timeSlot && b.status == a.status))

/-- The anti-double-booking invariant as the specification states it: per
(date, slot) at most one appointment with an active status. -/
def atMostOneActivePerSlot (appts : List Appointment) : Prop :=
  ∀ a ∈ appts, ∀ b ∈ appts,
    a.status.isActive → b.status.isActive →
    a.appointmentDate = b.appointmentDate → a.timeSlot = b.timeSlot → a = b

instance (appts : List Appointment) : Decidable (atMostOneActivePerSlot appts) := by
  unfold atMostOneActivePerSlot; infer_instance

/-! ## Booking Window Policy (`AppointmentService.validateBookingWindow`,
`AppointmentService.getFullyBookedDatesInRange`) -/

/-- Count of active appointments on day `d` in collection `appts`
(one aggregation group of `getFullyBookedDatesInRange`). -/
def activeCountOn (appts : List Appointment) (d : Nat) : Nat :=
  (appts.filter (fun a => a.appointmentDate == d && a.status.isActive)).length

/-- `AppointmentService.getFullyBookedDatesInRange`: the aggregation matches
active appointments with `appointmentDate` in `[startD, endD]` (inclusive,
`$gte`/`$lte`), groups them by ISO day string, keeps groups with
`count >= 4`, and returns the group keys.  At day granularity a group key is
the day number and a group size is `activeCountOn`; days of the range that
no appointment mentions form no group (their count would be 0 < 4), so
enumerating the whole range and filtering by `4 ≤ activeCountOn` yields the
same list of dates. -/
def getFullyBookedDatesInRange (appts : List Appointment) (startD endD : Nat) : List Nat :=
  ((List.range (endD + 1 - startD)).map (fun i => startD + i)).filter
    (fun d => 4 ≤ activeCountOn appts d)

structure WindowOutcome where
  isValid : Bool
  message : Option String
deriving Repr, DecidableEq

/-- `AppointmentService.validateBookingWindow`.  `today` and `requested` are
day numbers (the source normalises both to midnight).  `totalDaysInRange` is
`Math.ceil((threeMonths - today) in ms / one day)`; both instants are
midnights, so the difference is a whole number of days and the ceiling is
the plain day difference. -/
def validateBookingWindow (appts : List Appointment) (today requested : Nat) :
    WindowOutcome :=
  if requested < today then
    ⟨false, some "Cannot book appointments in the past"⟩
  else
    let threeMonthsFromNow := addMonths today 3
    if requested ≤ threeMonthsFromNow then ⟨true, none⟩
    else
      let fullyBookedDates := getFullyBookedDatesInRange appts today threeMonthsFromNow
      let totalDaysInRange := threeMonthsFromNow - today
      if totalDaysInRange ≤ fullyBookedDates.length then
        let sixMonthsFromNow := addMonths today 6
        if requested ≤ sixMonthsFromNow then ⟨true, none⟩
        else ⟨false, some "Booking window extended to 6 months due to high demand. Please choose a date within 6 months."⟩
      else ⟨false, some "Please choose a date within the next 3 months"⟩

/-- The saturation condition as the specification claim words it: every date
between `today` and `endD` (inclusive) is fully booked, all 4 slots occupied
by active appointments. -/
def specWindowSaturated (appts : List Appointment) (today endD : Nat) : Bool :=
  ((List.range (endD + 1 - today)).map (fun i => today + i)).all
    (fun d => getTimeSlots.all (fun ts =>
      appts.any (fun a =>
        a.appointmentDate == d && a.status.isActive && a.timeSlot == ts)))

/-! ## Points Ledger (updateUserPoints in src/controllers/adminController.ts
and src/controllers/userController.ts; balance check plus
`AppointmentService.deductUserPoints` in bookAppointment) -/

/-- One ledger operation over a user balance.  `debit` embeds the
`subtract` branch of `updateUserPoints` (admin and user variants share the
logic) and equally the `totalPoints < price` check followed by
`deductUserPoints` in `bookAppointment`; `credit` embeds `add` (and the
cancellation refund increment); `setTo` embeds `set`. -/
inductive LedgerOp where
  | debit (n : Int)
  | credit (n : Int)
  | setTo (n : Int)
deriving Repr, DecidableEq

inductive LedgerResult where
  | ok
  | insufficientBalance
deriving Repr, DecidableEq

/-- Request validation `updatePointsValidation` / `updateUserPointsValidation`:
`body('points').isInt({ min: 1 })`. -/
def LedgerOp.valid : LedgerOp → Prop
  | .debit n => 1 ≤ n
  | .credit n => 1 ≤ n
  | .setTo n => 1 ≤ n

/-- Apply one ledger operation: the `switch (operation)` of
`updateUserPoints`.  A subtract that would drive the balance negative is
rejected with the balance unchanged. -/
def applyLedgerOp (balance : Int) : LedgerOp → LedgerResult × Int
  | .credit n => (.ok, balance + n)
  | .debit n =>
      if balance - n < 0 then (.insufficientBalance, balance)
      else (.ok, balance - n)
  | .setTo n => (.ok, n)

/-- Fold a sequence of ledger operations over a balance (failed operations
leave it unchanged). -/
def applyLedgerOps (balance : Int) (ops : List LedgerOp) : Int :=
  ops.foldl (fun b op => (applyLedgerOp b op).2) balance

/-! ## Appointment Lifecycle Manager
(bookAppointment / cancelAppointment in
src/controllers/appointmentController.ts, cancelAppointment in
src/controllers/adminController.ts, createAppointment / deductUserPoints /
getUserAppointmentCount in src/services/appointmentService.ts) -/

structure UserRec where
  id : Nat
  totalPoints : Int
deriving Repr, DecidableEq

structure BookingStore where
  appointments : List Appointment
  users : List UserRec
deriving Repr, DecidableEq

def lookupUser (users : List UserRec) (uid : Nat) : Option UserRec :=
  users.find? (fun u => u.id == uid)

/-- `$inc: { totalPoints: delta }` on user `uid` (atomic increment on the
stored document). -/
def incUserPoints (users : List UserRec) (uid : Nat) (delta : Int) : List UserRec :=
  users.map (fun u => if u.id == uid then { u with totalPoints := u.totalPoints + delta } else u)

/-- `AppointmentService.getUserAppointmentCount`: active appointments of the
user. -/
def getUserAppointmentCount (appts : List Appointment) (uid : Nat) : Nat :=
  (appts.filter (fun a => a.userId == uid && a.status.isActive)).length

inductive BookResult where
  | windowRejected (message : Option String)
  | limitReached
  | noSlotAvailable
  | userNotFound
  | insufficientPoints (required : Nat) (available : Int)
  | booked (price : Nat) (slot : String)
  | serverError
deriving Repr, DecidableEq

/-- Persistence-failure oracle for one booking request: whether the
`appointment.save()` of `createAppointment`, respectively the
`findByIdAndUpdate` of `deductUserPoints`, throws.  A throw is caught by the
controller and answered with a 500 (`serverError`); a failed save persists
nothing, but a debit throw happens after the appointment was persisted. -/
structure BookFailure where
  createFails : Bool
  debitFails : Bool
deriving Repr, DecidableEq

/-- `bookAppointment` (src/controllers/appointmentController.ts lines
30-91): window policy, 3-appointment cap, slot allocation, pricing, user
lookup, balance check, then `createAppointment` (persists in `confirmed`
status) followed by `deductUserPoints` — two separate writes, no
transaction and no compensation. -/
def bookAppointment (uid : Nat) (st : ServiceType) (requestedDate today : Nat)
    (location notes : String) (newId : Nat) (oracle : BookFailure)
    (store : BookingStore) : BookResult × BookingStore :=
  let windowValidation := validateBookingWindow store.appointments today requestedDate
  if !windowValidation.isValid then (.windowRejected windowValidation.message, store)
  else if 3 ≤ getUserAppointmentCount store.appointments uid then (.limitReached, store)
  else
    match findAvailableSlot store.appointments requestedDate with
    | none => (.noSlotAvailable, store)
    | some slot =>
      let appointmentPrice := calculateAppointmentPrice st requestedDate
      match lookupUser store.users uid with
      | none => (.userNotFound, store)
      | some user =>
        if user.totalPoints < (appointmentPrice : Int) then
          (.insufficientPoints appointmentPrice user.totalPoints, store)
        else if oracle.createFails then (.serverError, store)
        else
          let appointment : Appointment :=
            { id := newId, userId := uid, serviceType := st,
              appointmentDate := requestedDate, timeSlot := slot.timeSlot,
              startTime := slot.startTime, endTime := slot.endTime,
              location := location, status := .confirmed,
              price := appointmentPrice, notes := notes }
          let store1 := { store with appointments := appointment :: store.appointments }
          if oracle.debitFails then (.serverError, store1)
          else
            (.booked appointmentPrice slot.timeSlot,
             { store1 with users := incUserPoints store1.users uid (-(appointmentPrice : Int)) })

inductive CancelResult where
  | notFound
  | alreadyCancelled
  | cannotCancelCompleted
  | cancelled (refundedPoints : Nat)
deriving Repr, DecidableEq

/-- Flip the status of appointment `aptId` to `cancelled`, optionally
appending the admin reason to its notes. -/
def setCancelled (appts : List Appointment) (aptId : Nat) (reason : Option String) :
    List Appointment :=
  appts.map (fun a =>
    if a.id == aptId then
      { a with
        status := .cancelled,
        notes := match reason with
          | none => a.notes
          | some r =>
            if a.notes == "" then "Cancelled by admin: " ++ r
            else a.notes ++ "\n\nCancelled by admin: " ++ r }
    else a)

/-- Owner-path `cancelAppointment` (appointmentController lines 161-204):
lookup by id and owner, reject terminal statuses, else flip to `cancelled`
and credit the owner by `price`. -/
def cancelAppointment (uid aptId : Nat) (store : BookingStore) :
    CancelResult × BookingStore :=
  match store.appointments.find? (fun a => a.id == aptId && a.userId == uid) with
  | none => (.notFound, store)
  | some appointment =>
    if appointment.status == .cancelled then (.alreadyCancelled, store)
    else if appointment.status == .completed then (.cannotCancelCompleted, store)
    else
      (.cancelled appointment.price,
       { appointments := setCancelled store.appointments aptId none,
         users := incUserPoints store.users uid (appointment.price : Int) })

inductive AdminCancelResult where
  | notFound
  | alreadyCancelled
  | cannotCancelCompleted
  | cancelled
deriving Repr, DecidableEq

/-- Admin-path `cancelAppointment` (adminController lines 371-439): lookup
by id alone, the same terminal-status guards, then flip to `cancelled` and
append the reason to the notes.  No points are credited on this path. -/
def adminCancelAppointment (aptId : Nat) (reason : Option String)
    (store : BookingStore) : AdminCancelResult × BookingStore :=
  match store.appointments.find? (fun a => a.id == aptId) with
  | none => (.notFound, store)
  | some appointment =>
    if appointment.status == .cancelled then (.alreadyCancelled, store)
    else if appointment.status == .completed then (.cannotCancelCompleted, store)
    else
      (.cancelled,
       { store with appointments := setCancelled store.appointments aptId reason })

/-! ## Purchase / Payment Reconciliation
(`StripeService.handleSuccessfulPayment` in src/services/stripeService.ts,
src/unnamed/part_008; `confirmPurchase` in src/controllers/packController.ts,
src/unnamed/part_011; webhook dispatch in src/webhooks/stripeWebhook.ts) -/

inductive PurchaseStatus where
  | pending
  | processing
  | succeeded
  | failed
  | canceled
deriving Repr, DecidableEq

/-- A purchase document (src/models/Purchase.ts, src/unnamed/part_006);
`stripePaymentIntentId` carries a schema-level `unique: true`. -/
structure Purchase where
  userId : Nat
  stripePaymentIntentId : String
  status : PurchaseStatus
  pointsAwarded : Nat
  bonusPointsAwarded : Nat
deriving Repr, DecidableEq

/-- The pack fields reconciliation reads (src/models/Pack.ts,
src/unnamed/part_005). -/
structure Pack where
  pointsIncluded : Nat
  bonusPoints : Nat
deriving Repr, DecidableEq

/-- Persistent state a reconciliation touches.  Every purchase in the model
references the one pack `pack` (in the source the pack is reached through
`populate('packId')`). -/
structure PayStore where
  purchases : List Purchase
  users : List UserRec
  pack : Pack
deriving Repr, DecidableEq

/-- `Purchase.findOne({ stripePaymentIntentId })`. -/
def findPurchaseByIntent (ps : List Purchase) (intentId : String) : Option Purchase :=
  ps.find? (fun p => p.stripePaymentIntentId == intentId)

/-- Overwrite the purchase row carrying `intentId`. -/
def updatePurchase (ps : List Purchase) (intentId : String)
    (f : Purchase → Purchase) : List Purchase :=
  ps.map (fun p => if p.stripePaymentIntentId == intentId then f p else p)

inductive ReconcileResult where
  | notFound
  | done (pointsAwarded : Nat) (alreadyProcessed : Bool)
  | errored
deriving Repr, DecidableEq

/-- `StripeService.handleSuccessfulPayment`:
lookup by external reference (`null` when absent); if the purchase is
already `succeeded`, return the recorded award amounts with
`alreadyProcessed: true` and change nothing; otherwise set the status to
`processing`, credit the user with `pack.pointsIncluded + pack.bonusPoints`
via an atomic increment, and — if the user row was found — record the
awards and set `succeeded`, else roll the status to `failed` and rethrow
(`errored`).  Note the function has no special case for a purchase already
in `processing` status and never queries the Stripe intent itself. -/
def handleSuccessfulPayment (intentId : String) (st : PayStore) :
    ReconcileResult × PayStore :=
  match findPurchaseByIntent st.purchases intentId with
  | none => (.notFound, st)
  | some purchase =>
    if purchase.status == .succeeded then
      (.done (purchase.pointsAwarded + purchase.bonusPointsAwarded) true, st)
    else
      let st1 := { st with purchases := (updatePurchase st.purchases intentId
                    (fun p => { p with status := .processing })) }
      let pointsToAward := st.pack.pointsIncluded
      let bonusPointsToAward := st.pack.bonusPoints
      let totalPointsToAward := pointsToAward + bonusPointsToAward
      match lookupUser st1.users purchase.userId with
      | none =>
        (.errored, { st1 with purchases := (updatePurchase st1.purchases intentId
                      (fun p => { p with status := .failed })) })
      | some _ =>
        let st2 := { st1 with
          users := incUserPoints st1.users purchase.userId (totalPointsToAward : Int),
          purchases := (updatePurchase st1.purchases intentId
            (fun p =>
              { p with
                status := PurchaseStatus.succeeded
                pointsAwarded := pointsToAward
                bonusPointsAwarded := bonusPointsToAward })) }
        (.done totalPointsToAward false, st2)

/-- Iterate `handleSuccessfulPayment` (discarding results); models repeated
webhook deliveries or repeated confirmations for the same reference. -/
def iterateReconcile (intentId : String) : Nat → PayStore → PayStore
  | 0, st => st
  | k + 1, st => iterateReconcile intentId k (handleSuccessfulPayment intentId st).2

/-- The authoritative intent status reported by
`StripeService.getPaymentIntent` (an opaque external query). -/
inductive StripeIntentStatus where
  | succeeded
  | requiresPaymentMethod
  | canceled
  | incomplete
deriving Repr, DecidableEq

inductive ConfirmResult where
  | notFound
  | alreadyCompleted (pointsAwarded : Nat)
  | inProgress
  | completed (pointsAwarded : Nat) (alreadyProcessed : Bool)
  | processingFailed
  | processingError
  | paymentRequiresAction
  | paymentCanceled
  | paymentIncomplete
deriving Repr, DecidableEq

/-- `confirmPurchase` (src/unnamed/part_011 lines 90-235), the
client-confirm entry point: lookup scoped to the authenticated requester
(`findOne({ stripePaymentIntentId, userId })`); `succeeded` answered
idempotently; `processing` answered 202 "please wait"; otherwise the
authoritative Stripe status `stripeStatus` is queried and only a `succeeded`
answer leads into `handleSuccessfulPayment`; every other answer is an error
response without a state change. -/
def confirmPurchase (requester : Nat) (intentId : String)
    (stripeStatus : StripeIntentStatus) (st : PayStore) :
    ConfirmResult × PayStore :=
  match st.purchases.find? (fun p =>
      p.stripePaymentIntentId == intentId && p.userId == requester) with
  | none => (.notFound, st)
  | some purchase =>
    if purchase.status == .succeeded then
      (.alreadyCompleted (purchase.pointsAwarded + purchase.bonusPointsAwarded), st)
    else if purchase.status == .processing then (.inProgress, st)
    else
      match stripeStatus with
      | .succeeded =>
        match handleSuccessfulPayment intentId st with
        | (.done pts already, st2) => (.completed pts already, st2)
        | (.notFound, st2) => (.processingFailed, st2)
        | (.errored, st2) => (.processingError, st2)
      | .requiresPaymentMethod => (.paymentRequiresAction, st)
      | .canceled => (.paymentCanceled, st)
      | .incomplete => (.paymentIncomplete, st)

/-- The `payment_intent.succeeded` arm of `handleStripeWebhook`
(src/webhooks/stripeWebhook.ts lines 37-52): after signature verification it
calls `StripeService.handleSuccessfulPayment` directly on the event's intent
id — with no user scoping, no own `processing` guard and no further query of
the intent. -/
def webhookPaymentSucceeded (intentId : String) (st : PayStore) :
    ReconcileResult × PayStore :=
  handleSuccessfulPayment intentId st

/-! ## Auxiliary readers and concrete fixtures used by the theorems -/

/-- The points balance the store holds for user `uid` (0 when absent). -/
def balanceOf (users : List UserRec) (uid : Nat) : Int :=
  match lookupUser users uid with
  | some u => u.totalPoints
  | none => 0

/-- Appointment-document builder for concrete test states. -/
def mkTestAppointment (id uid d : Nat) (ts : String) (s : AppointmentStatus)
    (price : Nat) : Appointment :=
  { id := id, userId := uid, serviceType := .basic, appointmentDate := d,
    timeSlot := ts,
    startTime := (createDateTimeFromSlot d ts).1,
    endTime := (createDateTimeFromSlot d ts).2,
    location := "Copenhagen", status := s, price := price, notes := "" }

/-- Four confirmed appointments filling the four slots of day `d`
(fixture for the booking-window saturation analysis). -/
def fourConfirmedOn (d : Nat) : List Appointment :=
  getTimeSlots.map (fun ts => mkTestAppointment 0 1 d ts .confirmed 1000)

/-- `n` consecutive fully-booked days starting at day `s`. -/
def fullyBookedBlock (s n : Nat) : List Appointment :=
  ((List.range n).map (fun i => fourConfirmedOn (s + i))).flatten

/-- Fixture for the booking-window boundary: today is 2025-07-01, and every
day of the inclusive 3-month window except today itself (2025-07-02 through
2025-10-01, 92 days) is fully booked. -/
def c7Today : Nat := mkDate 2025 7 1

def c7State : List Appointment := fullyBookedBlock (c7Today + 1) 92

def c7Requested : Nat := mkDate 2025 11 1

instance : DecidablePred LedgerOp.valid := by
  intro op
  cases op <;> (unfold LedgerOp.valid; infer_instance)

/-! ## Shared helper lemmas -/

/-- `find?` commutes with a `map` whose function leaves the search
predicate invariant (the shape of every targeted in-place collection
update: `updatePurchase`, `incUserPoints`, `setCancelled`). -/
theorem find?_map_comm {α : Type} (f : α → α) (p : α → Bool) (l : List α)
    (hp : ∀ x, p (f x) = p x) :
    (l.map f).find? p = (l.find? p).map f := by
  induction l with
  | nil => rfl
  | cons x xs ih =>
    simp only [List.map_cons, List.find?_cons, hp]
    cases h : p x <;> simp [h, ih]

/-- `activeCountOn` distributes over list append. -/
theorem activeCountOn_append (xs ys : List Appointment) (d : Nat) :
    activeCountOn (xs ++ ys) d = activeCountOn xs d + activeCountOn ys d := by
  simp [activeCountOn, List.filter_append]

/-- A fully-booked day contributes 4 active appointments to its own date
and none to any other date. -/
theorem activeCountOn_fourConfirmedOn (e d : Nat) :
    activeCountOn (fourConfirmedOn e) d = if e = d then 4 else 0 := by
  by_cases h : e = d
  · subst h
    simp [fourConfirmedOn, activeCountOn, getTimeSlots, mkTestAppointment,
      AppointmentStatus.isActive]
  · simp [fourConfirmedOn, activeCountOn, getTimeSlots, mkTestAppointment,
      AppointmentStatus.isActive, h]

/-- Active appointments per date of a block of `n` consecutive fully-booked
days starting at `s`. -/
theorem activeCountOn_fullyBookedBlock (n s d : Nat) :
    activeCountOn (fullyBookedBlock s n) d = if s ≤ d ∧ d < s + n then 4 else 0 := by
  induction n with
  | zero =>
    rw [if_neg (by omega)]
    rfl
  | succ m ih =>
    have hsplit : fullyBookedBlock s (m + 1) =
        fullyBookedBlock s m ++ fourConfirmedOn (s + m) := by
      simp [fullyBookedBlock, List.range_succ]
    rw [hsplit, activeCountOn_append, ih, activeCountOn_fourConfirmedOn]
    split_ifs <;> omega

/-- A date with no active appointments has no active appointment on any
slot. -/
theorem any_slot_false_of_count_zero (appts : List Appointment) (d : Nat)
    (h : activeCountOn appts d = 0) (ts : String) :
    (appts.any (fun a =>
      a.appointmentDate == d && a.status.isActive && a.timeSlot == ts)) = false := by
  rw [← Bool.not_eq_true]
  intro hany
  obtain ⟨a, ha, hcond⟩ := List.any_eq_true.mp hany
  simp only [Bool.and_eq_true] at hcond
  have hmem : a ∈ appts.filter (fun a => a.appointmentDate == d && a.status.isActive) :=
    List.mem_filter.mpr ⟨ha, by simp [hcond.1.1, hcond.1.2]⟩
  rw [activeCountOn, List.length_eq_zero] at h
  rw [h] at hmem
  exact absurd hmem (List.not_mem_nil a)

/-! ## Claim C1 -/

/-- C1: the specification claims that for a given (date, slot) at most one
appointment with status in {pending, confirmed, in_progress} can exist, and
that persisting a second active appointment fails with a uniqueness
violation even when the two statuses differ.  The schema's unique index
keys on `(appointmentDate, timeSlot, status)` (partial filter on active
statuses), so a `confirmed` insert at a (date, slot) already occupied by a
`pending` appointment is ADMITTED — only a same-status duplicate collides —
and the resulting collection violates the claimed invariant.  Evaluated at
date 2025-07-01, slot 14:00-16:00. -/
theorem c1_status_keyed_index_admits_double_booking :
    insertAdmitted
        [mkTestAppointment 1 1 (mkDate 2025 7 1) "14:00-16:00" .pending 1000]
        (mkTestAppointment 2 2 (mkDate 2025 7 1) "14:00-16:00" .confirmed 1000) = true ∧
    insertAdmitted
        [mkTestAppointment 1 1 (mkDate 2025 7 1) "14:00-16:00" .pending 1000]
        (mkTestAppointment 2 2 (mkDate 2025 7 1) "14:00-16:00" .pending 1000) = false ∧
    ¬ atMostOneActivePerSlot
        [mkTestAppointment 1 1 (mkDate 2025 7 1) "14:00-16:00" .pending 1000,
         mkTestAppointment 2 2 (mkDate 2025 7 1) "14:00-16:00" .confirmed 1000] := by
  decide

/-! ## Claim C2 -/

/-- C2: a debit that would drive the balance below zero fails with
`insufficientBalance` and leaves the balance unchanged, and any sequence of
validated ledger operations (debit, credit, set — request validation
requires the points argument to be an integer ≥ 1) keeps the balance
non-negative. -/
theorem c2_ledger_balance_never_negative :
    (∀ (b n : Int), 0 ≤ b → b - n < 0 →
        applyLedgerOp b (LedgerOp.debit n) = (LedgerResult.insufficientBalance, b)) ∧
    (∀ (b : Int) (ops : List LedgerOp), 0 ≤ b → (∀ op ∈ ops, op.valid) →
        0 ≤ applyLedgerOps b ops) := by
  constructor
  · intro b n _ hneg
    simp [applyLedgerOp, hneg]
  · intro b ops
    induction ops generalizing b with
    | nil =>
      intro hb _
      simpa [applyLedgerOps] using hb
    | cons op rest ih =>
      intro hb hv
      have hop : op.valid := hv op (List.mem_cons_self op rest)
      have hrest : ∀ o ∈ rest, o.valid := fun o ho => hv o (List.mem_cons_of_mem _ ho)
      have hstep : 0 ≤ (applyLedgerOp b op).2 := by
        cases op with
        | debit n =>
          simp only [applyLedgerOp]
          split
          · exact hb
          · simp only []
            omega
        | credit n =>
          simp only [applyLedgerOp]
          have h1 : 1 ≤ n := hop
          omega
        | setTo n =>
          simp only [applyLedgerOp]
          have h1 : 1 ≤ n := hop
          omega
      have hfold : applyLedgerOps b (op :: rest) = applyLedgerOps (applyLedgerOp b op).2 rest := rfl
      rw [hfold]
      exact ih (applyLedgerOp b op).2 hstep hrest

/-- Witness for C2 at concrete inputs: a debit of 10 against a balance of 5
is rejected with the balance intact, and a concrete validated sequence
keeps the balance non-negative. -/
theorem c2_ledger_balance_never_negative_witness :
    applyLedgerOp 5 (LedgerOp.debit 10) = (LedgerResult.insufficientBalance, 5) ∧
    0 ≤ applyLedgerOps 5 [LedgerOp.credit 3, LedgerOp.debit 7, LedgerOp.setTo 2] :=
  ⟨c2_ledger_balance_never_negative.1 5 10 (by decide) (by decide),
   c2_ledger_balance_never_negative.2 5
     [LedgerOp.credit 3, LedgerOp.debit 7, LedgerOp.setTo 2] (by decide) (by decide)⟩

/-! ## Claim C9 -/

/-- C9: base prices are basic 1000 and deluxe 1400; for every service type,
the price on a weekend-classified date is round(1.5 × the weekday price)
and the price on a holiday-classified date is round(2.0 × the weekday
price); and every date on the holiday list classifies as holiday no matter
its day of week (the holiday check precedes the weekend check). -/
theorem c9_pricing_multipliers :
    (∀ (st : ServiceType) (d1 d2 dh : Nat),
        getDateType d1 = .weekday → getDateType d2 = .weekend →
        getDateType dh = .holiday →
        ((calculateAppointmentPrice st d2 : ℤ) =
            round ((3 : ℚ) / 2 * (calculateAppointmentPrice st d1 : ℚ)) ∧
         (calculateAppointmentPrice st dh : ℤ) =
            round ((2 : ℚ) * (calculateAppointmentPrice st d1 : ℚ)))) ∧
    basePrice .basic = 1000 ∧ basePrice .deluxe = 1400 ∧
    (∀ t, t ∈ danishHolidays2025 → getDateType t = .holiday) := by
  refine ⟨?_, rfl, rfl, ?_⟩
  · intro st d1 d2 dh h1 h2 h3
    cases st <;>
      simp only [calculateAppointmentPrice, h1, h2, h3, basePrice] <;>
      constructor <;> norm_num [round_eq]
  · intro t ht
    have hc : danishHolidays2025.contains t = true :=
      List.contains_iff_exists_mem_beq.mpr ⟨t, ht, beq_self_eq_true t⟩
    unfold getDateType
    rw [if_pos hc]

/-- Witness for C9: 2025-07-01 is a weekday, 2025-07-05 a weekend day,
2025-12-25 a holiday, and the multiplier equations hold there for the
basic service. -/
theorem c9_pricing_multipliers_witness :
    getDateType (mkDate 2025 7 1) = .weekday ∧
    getDateType (mkDate 2025 7 5) = .weekend ∧
    getDateType (mkDate 2025 12 25) = .holiday ∧
    ((calculateAppointmentPrice .basic (mkDate 2025 7 5) : ℤ) =
        round ((3 : ℚ) / 2 * (calculateAppointmentPrice .basic (mkDate 2025 7 1) : ℚ)) ∧
     (calculateAppointmentPrice .basic (mkDate 2025 12 25) : ℤ) =
        round ((2 : ℚ) * (calculateAppointmentPrice .basic (mkDate 2025 7 1) : ℚ))) :=
  ⟨by decide, by decide, by decide,
   c9_pricing_multipliers.1 .basic (mkDate 2025 7 1) (mkDate 2025 7 5)
     (mkDate 2025 12 25) (by decide) (by decide) (by decide)⟩

/-! ## Claim C8 -/

/-- C8: for every collection state and requested date, `findAvailableSlot`
returns the first slot in the fixed declared order whose label is not
occupied by an active appointment on that date, with start/end times
derived from the date and slot; it never returns an occupied slot; and it
returns the `none` sentinel exactly when all four slot labels are
occupied. -/
theorem c8_find_available_slot (appts : List Appointment) (t : Nat) :
    (findAvailableSlot appts t =
      ((getTimeSlots.filter (fun ts => !(occupiedSlots appts t).contains ts)).head?).map
        (fun ts => ⟨ts, (createDateTimeFromSlot t ts).1, (createDateTimeFromSlot t ts).2⟩)) ∧
    (∀ r, findAvailableSlot appts t = some r →
      (occupiedSlots appts t).contains r.timeSlot = false) ∧
    (findAvailableSlot appts t = none ↔
      ∀ ts ∈ getTimeSlots, (occupiedSlots appts t).contains ts = true) := by
  cases h1 : (occupiedSlots appts t).contains "14:00-16:00" <;>
    cases h2 : (occupiedSlots appts t).contains "16:00-18:00" <;>
      cases h3 : (occupiedSlots appts t).contains "18:00-20:00" <;>
        cases h4 : (occupiedSlots appts t).contains "20:00-22:00" <;>
          refine ⟨?_, ?_, ?_⟩ <;>
            simp_all [findAvailableSlot, getTimeSlots, List.find?, h1, h2, h3, h4]

/-- Witness for C8: with the first slot of day 100 occupied by a confirmed
appointment, the allocator assigns the second slot, which is unoccupied. -/
theorem c8_find_available_slot_witness :
    findAvailableSlot
        [mkTestAppointment 1 1 100 "14:00-16:00" .confirmed 1000] 100 =
      some ⟨"16:00-18:00", (100, 16), (100, 18)⟩ ∧
    (occupiedSlots
        [mkTestAppointment 1 1 100 "14:00-16:00" .confirmed 1000] 100).contains
      "16:00-18:00" = false := by
  have hf : findAvailableSlot
      [mkTestAppointment 1 1 100 "14:00-16:00" .confirmed 1000] 100 =
      some ⟨"16:00-18:00", (100, 16), (100, 18)⟩ := by decide
  exact ⟨hf,
    (c8_find_available_slot
        [mkTestAppointment 1 1 100 "14:00-16:00" .confirmed 1000] 100).2.1 _ hf⟩

/-! ## Claim C10 -/

/-- C10: the client-confirm lookup is scoped to the requesting user:
when the purchase carrying the reference belongs to a different user
(references are unique across purchases, per the schema-level unique index
on `stripePaymentIntentId`), `confirmPurchase` answers `notFound` and
changes nothing — whatever the authoritative Stripe status would say. -/
theorem c10_confirm_lookup_scoped_to_requester
    (st : PayStore) (requester : Nat) (intentId : String) (p : Purchase)
    (_hp : p ∈ st.purchases)
    (_hpid : p.stripePaymentIntentId = intentId)
    (howner : p.userId ≠ requester)
    (huniq : ∀ q ∈ st.purchases, q.stripePaymentIntentId = intentId → q = p)
    (s : StripeIntentStatus) :
    confirmPurchase requester intentId s st = (.notFound, st) := by
  have hnone : st.purchases.find?
      (fun q => q.stripePaymentIntentId == intentId && q.userId == requester) = none := by
    rw [List.find?_eq_none]
    intro q hq hcond
    simp only [Bool.and_eq_true, beq_iff_eq] at hcond
    exact howner ((huniq q hq hcond.1) ▸ hcond.2)
  unfold confirmPurchase
  rw [hnone]

/-- Witness for C10: user 4 confirming the reference of a purchase owned by
user 3 gets `notFound` with nothing changed. -/
theorem c10_confirm_lookup_scoped_to_requester_witness :
    confirmPurchase 4 "pi_7" .succeeded
        ⟨[⟨3, "pi_7", .pending, 0, 0⟩], [⟨3, 0⟩, ⟨4, 50⟩], ⟨100, 10⟩⟩ =
      (.notFound, ⟨[⟨3, "pi_7", .pending, 0, 0⟩], [⟨3, 0⟩, ⟨4, 50⟩], ⟨100, 10⟩⟩) :=
  c10_confirm_lookup_scoped_to_requester
    ⟨[⟨3, "pi_7", .pending, 0, 0⟩], [⟨3, 0⟩, ⟨4, 50⟩], ⟨100, 10⟩⟩ 4 "pi_7"
    ⟨3, "pi_7", .pending, 0, 0⟩ (by decide) (by decide) (by decide) (by decide)
    .succeeded

/-! ## Reconciliation step lemmas -/

/-- `lookupUser` after `incUserPoints` on the same user reads the
incremented balance. -/
theorem balanceOf_incUserPoints (users : List UserRec) (uid : Nat) (d : Int)
    (u : UserRec) (hu : lookupUser users uid = some u) :
    balanceOf (incUserPoints users uid d) uid = balanceOf users uid + d := by
  have hu2 : users.find? (fun x => x.id == uid) = some u := hu
  have hid := List.find?_some hu2
  simp only [beq_iff_eq] at hid
  have hmap : lookupUser (incUserPoints users uid d) uid =
      (lookupUser users uid).map
        (fun x => if x.id == uid then { x with totalPoints := x.totalPoints + d } else x) := by
    unfold lookupUser incUserPoints
    exact find?_map_comm _ _ _
      (by intro x; by_cases h : (x.id == uid) = true <;> simp [h])
  unfold balanceOf
  rw [hmap, hu]
  simp [hid]

/-- A reconciliation on a purchase already `succeeded` is an observable
no-op returning the recorded award amounts. -/
theorem handle_step_succeeded (st : PayStore) (intentId : String) (p : Purchase)
    (hfind : findPurchaseByIntent st.purchases intentId = some p)
    (h : p.status = .succeeded) :
    handleSuccessfulPayment intentId st =
      (.done (p.pointsAwarded + p.bonusPointsAwarded) true, st) := by
  unfold handleSuccessfulPayment
  rw [hfind]
  dsimp only
  rw [if_pos (show (p.status == PurchaseStatus.succeeded) = true by simp [h])]

/-- A reconciliation on a purchase not yet `succeeded`, with the owning
user present, credits the pack total once, records the award amounts, and
moves the purchase to `succeeded`. -/
theorem handle_step_not_succeeded (st : PayStore) (intentId : String)
    (p : Purchase) (u : UserRec)
    (hfind : findPurchaseByIntent st.purchases intentId = some p)
    (hstatus : p.status ≠ .succeeded)
    (huser : lookupUser st.users p.userId = some u) :
    (handleSuccessfulPayment intentId st).1 =
        .done (st.pack.pointsIncluded + st.pack.bonusPoints) false ∧
    findPurchaseByIntent (handleSuccessfulPayment intentId st).2.purchases intentId =
      some
        { p with
          status := PurchaseStatus.succeeded
          pointsAwarded := st.pack.pointsIncluded
          bonusPointsAwarded := st.pack.bonusPoints } ∧
    balanceOf (handleSuccessfulPayment intentId st).2.users p.userId =
      balanceOf st.users p.userId +
        ((st.pack.pointsIncluded + st.pack.bonusPoints : Nat) : Int) ∧
    (handleSuccessfulPayment intentId st).2.users =
      incUserPoints st.users p.userId
        ((st.pack.pointsIncluded + st.pack.bonusPoints : Nat) : Int) ∧
    (handleSuccessfulPayment intentId st).2.pack = st.pack := by
  have hb : (p.status == PurchaseStatus.succeeded) = false := by
    simp [hstatus]
  have hfind2 : st.purchases.find? (fun q => q.stripePaymentIntentId == intentId) = some p :=
    hfind
  have hpid := List.find?_some hfind2
  simp only [beq_iff_eq] at hpid
  unfold handleSuccessfulPayment
  rw [hfind]
  dsimp only
  rw [if_neg (by simp [hb])]
  rw [huser]
  dsimp only
  refine ⟨rfl, ?_, ?_, rfl, rfl⟩
  · unfold findPurchaseByIntent updatePurchase
    rw [find?_map_comm _ _ _
      (by intro q; by_cases h : (q.stripePaymentIntentId == intentId) = true <;> simp [h])]
    rw [find?_map_comm _ _ _
      (by intro q; by_cases h : (q.stripePaymentIntentId == intentId) = true <;> simp [h])]
    rw [hfind2]
    simp [hpid]
  · exact balanceOf_incUserPoints st.users p.userId _ u huser

/-! ## Claim C3 -/

/-- C3: reconciling the same reference any number of times credits the user
exactly once: from a `pending` purchase with its owner present, the first
call credits `pack.pointsIncluded + pack.bonusPoints` and reports
`alreadyProcessed = false`; every later call reports the purchase as
already processed with the recorded award total and changes nothing. -/
theorem c3_reconcile_credits_exactly_once (st : PayStore) (intentId : String)
    (p : Purchase) (u : UserRec)
    (hfind : findPurchaseByIntent st.purchases intentId = some p)
    (hstatus : p.status = .pending)
    (huser : lookupUser st.users p.userId = some u) :
    (handleSuccessfulPayment intentId st).1 =
        .done (st.pack.pointsIncluded + st.pack.bonusPoints) false ∧
    balanceOf (handleSuccessfulPayment intentId st).2.users p.userId =
      balanceOf st.users p.userId +
        ((st.pack.pointsIncluded + st.pack.bonusPoints : Nat) : Int) ∧
    handleSuccessfulPayment intentId (handleSuccessfulPayment intentId st).2 =
      (.done (st.pack.pointsIncluded + st.pack.bonusPoints) true,
       (handleSuccessfulPayment intentId st).2) ∧
    (∀ k, iterateReconcile intentId k (handleSuccessfulPayment intentId st).2 =
      (handleSuccessfulPayment intentId st).2) := by
  obtain ⟨h1, h2, h3, _h4, _h5⟩ :=
    handle_step_not_succeeded st intentId p u hfind (by rw [hstatus]; simp) huser
  have hsecond : handleSuccessfulPayment intentId (handleSuccessfulPayment intentId st).2 =
      (.done (st.pack.pointsIncluded + st.pack.bonusPoints) true,
       (handleSuccessfulPayment intentId st).2) :=
    handle_step_succeeded _ intentId _ h2 rfl
  refine ⟨h1, h3, hsecond, ?_⟩
  intro k
  induction k with
  | zero => rfl
  | succ m ih =>
    show iterateReconcile intentId m
        (handleSuccessfulPayment intentId (handleSuccessfulPayment intentId st).2).2 =
      (handleSuccessfulPayment intentId st).2
    rw [hsecond]
    exact ih

/-- Witness for C3 with the scenario-D numbers: pack 2800 + 500 = 3300
points, user starting at 0: the first reconciliation credits 3300, a second
call reports already-processed 3300, and two more deliveries change
nothing. -/
theorem c3_reconcile_credits_exactly_once_witness :
    (handleSuccessfulPayment "pi_1"
        ⟨[⟨7, "pi_1", .pending, 0, 0⟩], [⟨7, 0⟩], ⟨2800, 500⟩⟩).1 = .done 3300 false ∧
    balanceOf (handleSuccessfulPayment "pi_1"
        ⟨[⟨7, "pi_1", .pending, 0, 0⟩], [⟨7, 0⟩], ⟨2800, 500⟩⟩).2.users 7 = 3300 ∧
    handleSuccessfulPayment "pi_1" (handleSuccessfulPayment "pi_1"
        ⟨[⟨7, "pi_1", .pending, 0, 0⟩], [⟨7, 0⟩], ⟨2800, 500⟩⟩).2 =
      (.done 3300 true,
       (handleSuccessfulPayment "pi_1"
        ⟨[⟨7, "pi_1", .pending, 0, 0⟩], [⟨7, 0⟩], ⟨2800, 500⟩⟩).2) ∧
    iterateReconcile "pi_1" 2 (handleSuccessfulPayment "pi_1"
        ⟨[⟨7, "pi_1", .pending, 0, 0⟩], [⟨7, 0⟩], ⟨2800, 500⟩⟩).2 =
      (handleSuccessfulPayment "pi_1"
        ⟨[⟨7, "pi_1", .pending, 0, 0⟩], [⟨7, 0⟩], ⟨2800, 500⟩⟩).2 := by
  have h := c3_reconcile_credits_exactly_once
    ⟨[⟨7, "pi_1", .pending, 0, 0⟩], [⟨7, 0⟩], ⟨2800, 500⟩⟩ "pi_1"
    ⟨7, "pi_1", .pending, 0, 0⟩ ⟨7, 0⟩ (by decide) rfl (by decide)
  exact ⟨h.1, by simpa using h.2.1, h.2.2.1, h.2.2.2 2⟩

/-! ## Claim C4 -/

/-- C4 counterexample: the claim says that on BOTH reconciliation entry
points a purchase found already in `processing` state is not processed
again but reported as in progress.  On the webhook entry point the
crediting routine has no `processing` guard: with the purchase of user 7
in `processing` state and a balance of 100, the webhook handler for a
succeeded intent processes it again — it reports a fresh
(`alreadyProcessed = false`) award of the pack total 15, credits the
balance to 115 and moves the purchase to `succeeded`. -/
theorem c4_webhook_processes_processing_purchase :
    (webhookPaymentSucceeded "pi_9"
        ⟨[⟨7, "pi_9", .processing, 0, 0⟩], [⟨7, 100⟩], ⟨10, 5⟩⟩).1 = .done 15 false ∧
    balanceOf (webhookPaymentSucceeded "pi_9"
        ⟨[⟨7, "pi_9", .processing, 0, 0⟩], [⟨7, 100⟩], ⟨10, 5⟩⟩).2.users 7 = 115 ∧
    (findPurchaseByIntent (webhookPaymentSucceeded "pi_9"
        ⟨[⟨7, "pi_9", .processing, 0, 0⟩], [⟨7, 100⟩], ⟨10, 5⟩⟩).2.purchases
      "pi_9").map Purchase.status = some .succeeded := by
  decide

/-- C4 amended: only the client-confirm entry point queries the
authoritative intent status and guards the `processing` state.  On that
path: a purchase that is neither `succeeded` nor `processing` is settled
against the queried authoritative status — any answer other than
`succeeded` produces an error response with no state change, and a
`succeeded` answer dispatches into the shared crediting routine (which then
marks `processing` before crediting); a purchase found in `processing` is
answered "in progress" with no state change.  The webhook entry point
dispatches into the same crediting routine directly, without re-querying
the processor and without a `processing` guard, so a `processing` purchase
with its owner present is processed there again and credited the pack
total. -/
theorem c4_reconcile_entry_points :
    (∀ (st : PayStore) (requester : Nat) (intentId : String) (p : Purchase)
        (s : StripeIntentStatus),
      st.purchases.find? (fun q =>
          q.stripePaymentIntentId == intentId && q.userId == requester) = some p →
      p.status ≠ .succeeded → p.status ≠ .processing → s ≠ .succeeded →
      (confirmPurchase requester intentId s st).2 = st) ∧
    (∀ (st : PayStore) (requester : Nat) (intentId : String) (p : Purchase),
      st.purchases.find? (fun q =>
          q.stripePaymentIntentId == intentId && q.userId == requester) = some p →
      p.status ≠ .succeeded → p.status ≠ .processing →
      confirmPurchase requester intentId .succeeded st =
        (match handleSuccessfulPayment intentId st with
         | (.done pts already, st2) => (.completed pts already, st2)
         | (.notFound, st2) => (.processingFailed, st2)
         | (.errored, st2) => (.processingError, st2))) ∧
    (∀ (st : PayStore) (requester : Nat) (intentId : String) (p : Purchase)
        (s : StripeIntentStatus),
      st.purchases.find? (fun q =>
          q.stripePaymentIntentId == intentId && q.userId == requester) = some p →
      p.status = .processing →
      confirmPurchase requester intentId s st = (.inProgress, st)) ∧
    (∀ (intentId : String) (st : PayStore),
      webhookPaymentSucceeded intentId st = handleSuccessfulPayment intentId st) ∧
    (∀ (st : PayStore) (intentId : String) (p : Purchase) (u : UserRec),
      findPurchaseByIntent st.purchases intentId = some p →
      p.status = .processing →
      lookupUser st.users p.userId = some u →
      (handleSuccessfulPayment intentId st).1 =
          .done (st.pack.pointsIncluded + st.pack.bonusPoints) false ∧
      balanceOf (handleSuccessfulPayment intentId st).2.users p.userId =
        balanceOf st.users p.userId +
          ((st.pack.pointsIncluded + st.pack.bonusPoints : Nat) : Int)) := by
  refine ⟨?_, ?_, ?_, fun _ _ => rfl, ?_⟩
  · intro st requester intentId p s hfind h1 h2 hs
    unfold confirmPurchase
    rw [hfind]
    dsimp only
    rw [if_neg (by simp [h1]), if_neg (by simp [h2])]
    cases s with
    | succeeded => exact absurd rfl hs
    | requiresPaymentMethod => rfl
    | canceled => rfl
    | incomplete => rfl
  · intro st requester intentId p hfind h1 h2
    unfold confirmPurchase
    rw [hfind]
    dsimp only
    rw [if_neg (by simp [h1]), if_neg (by simp [h2])]
  · intro st requester intentId p s hfind h2
    unfold confirmPurchase
    rw [hfind]
    dsimp only
    rw [if_neg (by simp [show p.status ≠ .succeeded by rw [h2]; simp]), if_pos (by simp [h2])]
  · intro st intentId p u hfind h2 huser
    obtain ⟨ha, _, hb, _, _⟩ :=
      handle_step_not_succeeded st intentId p u hfind (by rw [h2]; simp) huser
    exact ⟨ha, hb⟩

/-- Witness for C4 at concrete inputs: a pending purchase confirmed while
the authoritative status is `canceled` changes nothing; one confirmed
under authoritative `succeeded` dispatches into the crediting routine; a
`processing` purchase is answered in-progress on the confirm path; and the
webhook credits a `processing` purchase again. -/
theorem c4_reconcile_entry_points_witness :
    (confirmPurchase 7 "pi_2" .canceled
        ⟨[⟨7, "pi_2", .pending, 0, 0⟩], [⟨7, 100⟩], ⟨10, 5⟩⟩).2 =
      ⟨[⟨7, "pi_2", .pending, 0, 0⟩], [⟨7, 100⟩], ⟨10, 5⟩⟩ ∧
    confirmPurchase 7 "pi_2" .succeeded
        ⟨[⟨7, "pi_2", .pending, 0, 0⟩], [⟨7, 100⟩], ⟨10, 5⟩⟩ =
      (match handleSuccessfulPayment "pi_2"
          ⟨[⟨7, "pi_2", .pending, 0, 0⟩], [⟨7, 100⟩], ⟨10, 5⟩⟩ with
       | (.done pts already, st2) => (.completed pts already, st2)
       | (.notFound, st2) => (.processingFailed, st2)
       | (.errored, st2) => (.processingError, st2)) ∧
    confirmPurchase 7 "pi_2" .succeeded
        ⟨[⟨7, "pi_2", .processing, 0, 0⟩], [⟨7, 100⟩], ⟨10, 5⟩⟩ =
      (.inProgress, ⟨[⟨7, "pi_2", .processing, 0, 0⟩], [⟨7, 100⟩], ⟨10, 5⟩⟩) ∧
    (handleSuccessfulPayment "pi_2"
        ⟨[⟨7, "pi_2", .processing, 0, 0⟩], [⟨7, 100⟩], ⟨10, 5⟩⟩).1 = .done 15 false :=
  ⟨c4_reconcile_entry_points.1
      ⟨[⟨7, "pi_2", .pending, 0, 0⟩], [⟨7, 100⟩], ⟨10, 5⟩⟩ 7 "pi_2"
      ⟨7, "pi_2", .pending, 0, 0⟩ .canceled (by decide) (by decide) (by decide)
      (by decide),
   c4_reconcile_entry_points.2.1
      ⟨[⟨7, "pi_2", .pending, 0, 0⟩], [⟨7, 100⟩], ⟨10, 5⟩⟩ 7 "pi_2"
      ⟨7, "pi_2", .pending, 0, 0⟩ (by decide) (by decide) (by decide),
   c4_reconcile_entry_points.2.2.1
      ⟨[⟨7, "pi_2", .processing, 0, 0⟩], [⟨7, 100⟩], ⟨10, 5⟩⟩ 7 "pi_2"
      ⟨7, "pi_2", .processing, 0, 0⟩ .succeeded (by decide) rfl,
   (c4_reconcile_entry_points.2.2.2.2
      ⟨[⟨7, "pi_2", .processing, 0, 0⟩], [⟨7, 100⟩], ⟨10, 5⟩⟩ "pi_2"
      ⟨7, "pi_2", .processing, 0, 0⟩ ⟨7, 100⟩ (by decide) rfl (by decide)).1⟩

/-! ## Claim C6 -/

/-- C6 counterexample: the claim says the full refund is granted on the
admin-override path as well as the owner path.  Admin-cancelling the
confirmed appointment 5 (price 500, owner 9 with balance 100) flips it to
`cancelled` but leaves the owner's balance at 100 — the admin path credits
nothing. -/
theorem c6_admin_cancel_does_not_refund :
    (adminCancelAppointment 5 none
        ⟨[mkTestAppointment 5 9 100 "14:00-16:00" .confirmed 500], [⟨9, 100⟩]⟩).1 =
      .cancelled ∧
    ((adminCancelAppointment 5 none
        ⟨[mkTestAppointment 5 9 100 "14:00-16:00" .confirmed 500], [⟨9, 100⟩]⟩).2.appointments.map
      Appointment.status) = [.cancelled] ∧
    balanceOf (adminCancelAppointment 5 none
        ⟨[mkTestAppointment 5 9 100 "14:00-16:00" .confirmed 500], [⟨9, 100⟩]⟩).2.users 9 =
      100 := by
  decide

/-- C6 amended: cancelling an appointment whose status is `cancelled` or
`completed` is rejected with no state change and no refund, on the owner
path and on the admin path alike, so repeating a cancellation never refunds
twice; cancelling in any other status sets the status to `cancelled`; the
owner path credits the owner's balance by exactly the appointment's price,
while the admin path changes no balance (no refund there). -/
theorem c6_cancel_paths :
    (∀ (store : BookingStore) (uid aptId : Nat) (a : Appointment),
      store.appointments.find? (fun x => x.id == aptId && x.userId == uid) = some a →
      a.status = .cancelled →
      cancelAppointment uid aptId store = (.alreadyCancelled, store)) ∧
    (∀ (store : BookingStore) (uid aptId : Nat) (a : Appointment),
      store.appointments.find? (fun x => x.id == aptId && x.userId == uid) = some a →
      a.status = .completed →
      cancelAppointment uid aptId store = (.cannotCancelCompleted, store)) ∧
    (∀ (store : BookingStore) (uid aptId : Nat) (a : Appointment) (u : UserRec),
      store.appointments.find? (fun x => x.id == aptId && x.userId == uid) = some a →
      a.status ≠ .cancelled → a.status ≠ .completed →
      lookupUser store.users uid = some u →
      cancelAppointment uid aptId store =
        (.cancelled a.price,
         ⟨setCancelled store.appointments aptId none,
          incUserPoints store.users uid (a.price : Int)⟩) ∧
      balanceOf (incUserPoints store.users uid (a.price : Int)) uid =
        balanceOf store.users uid + (a.price : Int) ∧
      cancelAppointment uid aptId
          ⟨setCancelled store.appointments aptId none,
           incUserPoints store.users uid (a.price : Int)⟩ =
        (.alreadyCancelled,
         ⟨setCancelled store.appointments aptId none,
          incUserPoints store.users uid (a.price : Int)⟩)) ∧
    (∀ (store : BookingStore) (aptId : Nat) (reason : Option String) (a : Appointment),
      store.appointments.find? (fun x => x.id == aptId) = some a →
      a.status = .cancelled →
      adminCancelAppointment aptId reason store = (.alreadyCancelled, store)) ∧
    (∀ (store : BookingStore) (aptId : Nat) (reason : Option String) (a : Appointment),
      store.appointments.find? (fun x => x.id == aptId) = some a →
      a.status ≠ .cancelled → a.status ≠ .completed →
      adminCancelAppointment aptId reason store =
        (.cancelled,
         { store with appointments := setCancelled store.appointments aptId reason }) ∧
      (adminCancelAppointment aptId reason store).2.users = store.users) := by
  refine ⟨?_, ?_, ?_, ?_, ?_⟩
  · intro store uid aptId a hfind hs
    unfold cancelAppointment
    rw [hfind]
    dsimp only
    rw [if_pos (by simp [hs])]
  · intro store uid aptId a hfind hs
    unfold cancelAppointment
    rw [hfind]
    dsimp only
    rw [if_neg (by simp [hs]), if_pos (by simp [hs])]
  · intro store uid aptId a u hfind hs1 hs2 hu
    have hfirst : cancelAppointment uid aptId store =
        (.cancelled a.price,
         ⟨setCancelled store.appointments aptId none,
          incUserPoints store.users uid (a.price : Int)⟩) := by
      unfold cancelAppointment
      rw [hfind]
      dsimp only
      rw [if_neg (by simp [hs1]), if_neg (by simp [hs2])]
    have hpa := List.find?_some hfind
    simp only [Bool.and_eq_true, beq_iff_eq] at hpa
    have hfind2 : (setCancelled store.appointments aptId none).find?
        (fun x => x.id == aptId && x.userId == uid) =
        some { a with status := .cancelled } := by
      unfold setCancelled
      rw [find?_map_comm _ _ _ (by
        intro x
        by_cases h : (x.id == aptId) = true <;> simp [h])]
      rw [hfind]
      simp [hpa.1]
    refine ⟨hfirst, balanceOf_incUserPoints store.users uid _ u hu, ?_⟩
    unfold cancelAppointment
    rw [hfind2]
    dsimp only
    rw [if_pos (by simp)]
  · intro store aptId reason a hfind hs
    unfold adminCancelAppointment
    rw [hfind]
    dsimp only
    rw [if_pos (by simp [hs])]
  · intro store aptId reason a hfind hs1 hs2
    have hmain : adminCancelAppointment aptId reason store =
        (.cancelled,
         { store with appointments := setCancelled store.appointments aptId reason }) := by
      unfold adminCancelAppointment
      rw [hfind]
      dsimp only
      rw [if_neg (by simp [hs1]), if_neg (by simp [hs2])]
    exact ⟨hmain, by rw [hmain]⟩

/-- Witness for C6: owner 9 cancels the confirmed appointment 5 of price
500 — the status flips, the balance is credited from 100 to 600, and a
repeated cancellation is rejected without a second refund; admin-cancelling
the confirmed appointment 6 flips its status and touches no balance. -/
theorem c6_cancel_paths_witness :
    cancelAppointment 9 5
        ⟨[mkTestAppointment 5 9 100 "14:00-16:00" .confirmed 500], [⟨9, 100⟩]⟩ =
      (.cancelled 500,
       ⟨setCancelled [mkTestAppointment 5 9 100 "14:00-16:00" .confirmed 500] 5 none,
        incUserPoints [⟨9, 100⟩] 9 500⟩) ∧
    balanceOf (incUserPoints [⟨9, 100⟩] 9 500) 9 = 100 + 500 ∧
    cancelAppointment 9 5
        ⟨setCancelled [mkTestAppointment 5 9 100 "14:00-16:00" .confirmed 500] 5 none,
         incUserPoints [⟨9, 100⟩] 9 500⟩ =
      (.alreadyCancelled,
       ⟨setCancelled [mkTestAppointment 5 9 100 "14:00-16:00" .confirmed 500] 5 none,
        incUserPoints [⟨9, 100⟩] 9 500⟩) ∧
    adminCancelAppointment 6 (some "ops")
        ⟨[mkTestAppointment 6 9 100 "14:00-16:00" .confirmed 500], [⟨9, 100⟩]⟩ =
      (.cancelled,
       { appointments :=
           setCancelled [mkTestAppointment 6 9 100 "14:00-16:00" .confirmed 500] 6
             (some "ops"),
         users := [⟨9, 100⟩] }) := by
  have h3 := c6_cancel_paths.2.2.1
    ⟨[mkTestAppointment 5 9 100 "14:00-16:00" .confirmed 500], [⟨9, 100⟩]⟩ 9 5
    (mkTestAppointment 5 9 100 "14:00-16:00" .confirmed 500) ⟨9, 100⟩
    (by decide) (by decide) (by decide) (by decide)
  have h5 := c6_cancel_paths.2.2.2.2
    ⟨[mkTestAppointment 6 9 100 "14:00-16:00" .confirmed 500], [⟨9, 100⟩]⟩ 6
    (some "ops") (mkTestAppointment 6 9 100 "14:00-16:00" .confirmed 500)
    (by decide) (by decide) (by decide)
  exact ⟨h3.1, h3.2.1, h3.2.2, h5.1⟩

/-! ## Claim C5 -/

/-- C5 counterexample: booking is create-then-debit with no transaction and
no compensation.  For user 1 (balance 2000) booking a basic service on
2025-07-01 (a weekday, price 1000) against an empty calendar, a failure of
the debit write after the appointment was persisted yields a 500 response
while the confirmed appointment remains persisted and the balance remains
2000 — an appointment without its debit, contradicting the claimed
atomicity. -/
theorem c5_debit_failure_leaves_orphan_appointment :
    (bookAppointment 1 .basic (mkDate 2025 7 1) (mkDate 2025 7 1) "loc" "" 42
        ⟨false, true⟩ ⟨[], [⟨1, 2000⟩]⟩).1 = .serverError ∧
    ((bookAppointment 1 .basic (mkDate 2025 7 1) (mkDate 2025 7 1) "loc" "" 42
        ⟨false, true⟩ ⟨[], [⟨1, 2000⟩]⟩).2.appointments.map
      (fun a => (a.status, a.price))) = [(.confirmed, 1000)] ∧
    (bookAppointment 1 .basic (mkDate 2025 7 1) (mkDate 2025 7 1) "loc" "" 42
        ⟨false, true⟩ ⟨[], [⟨1, 2000⟩]⟩).2.users = [⟨1, 2000⟩] := by
  decide

/-- C5 amended: when the debit write does not fail, booking is atomic —
either a non-`booked` outcome with the store unchanged, or a `booked`
outcome whose store carries exactly the new confirmed appointment at the
allocated slot and the balance debited by exactly the computed price.  But
when the debit write fails after a successful create, the run answers
`serverError` while the persisted appointments equal those of a fully
successful run and no balance changes — the created appointment survives
without its debit. -/
theorem c5_booking_effects :
    (∀ (uid : Nat) (st : ServiceType) (rd today : Nat) (loc notes : String)
        (newId : Nat) (cf : Bool) (store : BookingStore),
      ((bookAppointment uid st rd today loc notes newId ⟨cf, false⟩ store).2 = store ∧
        ∀ p s, (bookAppointment uid st rd today loc notes newId ⟨cf, false⟩ store).1 ≠
          .booked p s) ∨
      (∃ slot, findAvailableSlot store.appointments rd = some slot ∧
        (bookAppointment uid st rd today loc notes newId ⟨cf, false⟩ store).1 =
          .booked (calculateAppointmentPrice st rd) slot.timeSlot ∧
        (bookAppointment uid st rd today loc notes newId ⟨cf, false⟩ store).2 =
          ⟨{ id := newId, userId := uid, serviceType := st, appointmentDate := rd,
             timeSlot := slot.timeSlot, startTime := slot.startTime,
             endTime := slot.endTime, location := loc, status := .confirmed,
             price := calculateAppointmentPrice st rd, notes := notes } ::
            store.appointments,
           incUserPoints store.users uid (-(calculateAppointmentPrice st rd : Int))⟩)) ∧
    (∀ (uid : Nat) (st : ServiceType) (rd today : Nat) (loc notes : String)
        (newId : Nat) (store : BookingStore) (p : Nat) (s : String),
      (bookAppointment uid st rd today loc notes newId ⟨false, false⟩ store).1 =
        .booked p s →
      (bookAppointment uid st rd today loc notes newId ⟨false, true⟩ store).1 =
          .serverError ∧
      (bookAppointment uid st rd today loc notes newId ⟨false, true⟩ store).2.users =
        store.users ∧
      (bookAppointment uid st rd today loc notes newId ⟨false, true⟩ store).2.appointments =
        (bookAppointment uid st rd today loc notes newId ⟨false, false⟩ store).2.appointments) := by
  constructor
  · intro uid st rd today loc notes newId cf store
    simp only [bookAppointment]
    split
    · exact Or.inl ⟨rfl, fun p s => by simp⟩
    · split
      · exact Or.inl ⟨rfl, fun p s => by simp⟩
      · split
        · exact Or.inl ⟨rfl, fun p s => by simp⟩
        · next slot hs =>
          split
          · exact Or.inl ⟨rfl, fun p s => by simp⟩
          · split
            · exact Or.inl ⟨rfl, fun p s => by simp⟩
            · split
              · exact Or.inl ⟨rfl, fun p s => by simp⟩
              · exact Or.inr ⟨slot, hs, rfl, rfl⟩
  · intro uid st rd today loc notes newId store p s h
    revert h
    simp only [bookAppointment]
    split
    · intro h; exact absurd h (by simp)
    · split
      · intro h; exact absurd h (by simp)
      · split
        · intro h; exact absurd h (by simp)
        · split
          · intro h; exact absurd h (by simp)
          · split
            · intro h; exact absurd h (by simp)
            · split
              · intro h; exact absurd h (by simp)
              · intro _; exact ⟨rfl, rfl, rfl⟩

/-- Witness for C5: the no-failure run of the counterexample booking
succeeds with both effects observed — the appointment at the first slot and
the balance debited from 2000 to 1000. -/
theorem c5_booking_effects_witness :
    (bookAppointment 1 .basic (mkDate 2025 7 1) (mkDate 2025 7 1) "loc" "" 42
        ⟨false, false⟩ ⟨[], [⟨1, 2000⟩]⟩).1 = .booked 1000 "14:00-16:00" ∧
    (bookAppointment 1 .basic (mkDate 2025 7 1) (mkDate 2025 7 1) "loc" "" 42
        ⟨false, false⟩ ⟨[], [⟨1, 2000⟩]⟩).2.users = [⟨1, 1000⟩] ∧
    (bookAppointment 1 .basic (mkDate 2025 7 1) (mkDate 2025 7 1) "loc" "" 42
        ⟨false, true⟩ ⟨[], [⟨1, 2000⟩]⟩).1 = .serverError := by
  refine ⟨by decide, by decide, ?_⟩
  exact ((c5_booking_effects.2 1 .basic (mkDate 2025 7 1) (mkDate 2025 7 1) "loc" ""
    42 ⟨[], [⟨1, 2000⟩]⟩ 1000 "14:00-16:00") (by decide)).1

/-! ## Claim C7 -/

/-- C7 counterexample: the claim accepts a beyond-3-months date only when
the count of fully-booked dates EQUALS the total number of dates in the
3-month window (every date saturated).  The code compares the count against
`Math.ceil` of the day difference, which is one LESS than the number of
dates in the inclusive window, with `>=`.  With today = 2025-07-01 and
every day of the window except today itself fully booked (92 of the 93
dates 2025-07-01..2025-10-01), the code accepts a request for 2025-11-01 —
beyond 3 months — although the window is not saturated in the claim's
sense. -/
theorem c7_window_accepts_before_saturation :
    (validateBookingWindow c7State c7Today c7Requested).isValid = true ∧
    addMonths c7Today 3 < c7Requested ∧
    specWindowSaturated c7State c7Today (addMonths c7Today 3) = false := by
  decide

/-- C7 amended: `validateBookingWindow` rejects every requested date
earlier than today and accepts every date up to today + 3 months.  A date
beyond today + 3 months is accepted exactly when the number of dates in the
inclusive window [today, today + 3 months] carrying at least 4 active
appointments is at least the plain day difference between today and
today + 3 months (one fewer than the number of dates in that window) and
the requested date is at most today + 6 months; when that count falls
short, it rejects with the "choose a date within the next 3 months"
message regardless of availability on the requested date itself. -/
theorem c7_booking_window_policy (appts : List Appointment) (today requested : Nat) :
    (requested < today →
      validateBookingWindow appts today requested =
        ⟨false, some "Cannot book appointments in the past"⟩) ∧
    (today ≤ requested → requested ≤ addMonths today 3 →
      validateBookingWindow appts today requested = ⟨true, none⟩) ∧
    (today ≤ requested → addMonths today 3 < requested →
      ((validateBookingWindow appts today requested).isValid = true ↔
        (addMonths today 3 - today ≤
            (getFullyBookedDatesInRange appts today (addMonths today 3)).length ∧
          requested ≤ addMonths today 6)) ∧
      ((getFullyBookedDatesInRange appts today (addMonths today 3)).length <
          addMonths today 3 - today →
        validateBookingWindow appts today requested =
          ⟨false, some "Please choose a date within the next 3 months"⟩)) := by
  refine ⟨?_, ?_, ?_⟩
  · intro h
    unfold validateBookingWindow
    rw [if_pos h]
  · intro h1 h2
    unfold validateBookingWindow
    rw [if_neg (by omega)]
    dsimp only
    rw [if_pos h2]
  · intro h0 h3
    unfold validateBookingWindow
    rw [if_neg (by omega), if_neg (by omega)]
    dsimp only
    constructor
    · by_cases hsat : addMonths today 3 - today ≤
          (getFullyBookedDatesInRange appts today (addMonths today 3)).length
      · rw [if_pos hsat]
        by_cases h6 : requested ≤ addMonths today 6
        · rw [if_pos h6]
          simp [hsat, h6]
        · rw [if_neg h6]
          simp [hsat, h6]
      · rw [if_neg hsat]
        simp only [WindowOutcome.isValid]
        constructor
        · intro hc; cases hc
        · intro hc; exact absurd hc.1 hsat
    · intro hlt
      rw [if_neg (by omega)]

/-- Witness for C7 at concrete inputs with today = 2025-07-01 and an empty
calendar: 2025-06-01 is rejected as past, 2025-08-01 is accepted inside the
3-month window, and 2025-11-01 (beyond 3 months, unsaturated window) is
rejected with the 3-month message. -/
theorem c7_booking_window_policy_witness :
    validateBookingWindow [] c7Today (mkDate 2025 6 1) =
      ⟨false, some "Cannot book appointments in the past"⟩ ∧
    validateBookingWindow [] c7Today (mkDate 2025 8 1) = ⟨true, none⟩ ∧
    validateBookingWindow [] c7Today c7Requested =
      ⟨false, some "Please choose a date within the next 3 months"⟩ :=
  ⟨(c7_booking_window_policy [] c7Today (mkDate 2025 6 1)).1 (by decide),
   (c7_booking_window_policy [] c7Today (mkDate 2025 8 1)).2.1 (by decide) (by decide),
   ((c7_booking_window_policy [] c7Today c7Requested).2.2 (by decide) (by decide)).2
     (by decide)⟩

end DryIce
